import Mathlib

/-!
Shallow embedding of the scriptpoints debug-adapter tracker: the breakpoint
request rewriter, the response correlator, the stop matcher, the script
executor and the resume policy, together with proofs of the specified
properties.  Each definition mirrors the corresponding function of the
extension source; JavaScript strings are modelled as Lean strings, optional
protocol fields as Option, and JavaScript number fields holding sequence
numbers as Int (the tracker initialises them to -1).
-/

namespace Scriptpoints

/-! String helpers: the script-extraction regular expression and the
substring test used by the resume policy. -/

/-- Characters matched by the JavaScript regex class for whitespace. -/
def jsWhitespace (c : Char) : Bool :=
  c == ' ' || c == '\t' || c == '\n' || c == '\r' || c == '\x0b' || c == '\x0c' ||
  c == '\u00a0' || c == '\ufeff' || c == '\u2028' || c == '\u2029'

/-- Characters matched by the JavaScript regex dot (everything except line
terminators). -/
def regexDotChar (c : Char) : Bool :=
  !(c == '\n' || c == '\r' || c == '\u2028' || c == '\u2029')

/-- One attempt of the pattern at the head of the
character list: one bang, optionally a second bang (greedy), greedy
whitespace, then the capture group taking the rest of the line.  Returns the
capture group on success. -/
def matchTagAt : List Char → Option (List Char)
  | '!' :: rest =>
    let rest2 := match rest with
      | '!' :: r => r
      | r => r
    some ((rest2.dropWhile jsWhitespace).takeWhile regexDotChar)
  | _ => none

/-- Regex search: try the pattern at every position, left to right, and
return the first capture. -/
def jsMatchList : List Char → Option (List Char)
  | [] => none
  | c :: rest =>
    match matchTagAt (c :: rest) with
    | some cap => some cap
    | none => jsMatchList rest

/-- Model of the second regex capture group of
logMessage.match on the script-extraction pattern. -/
def jsMatch (s : String) : Option String :=
  (jsMatchList s.data).map String.mk

/-- Substring containment, modelling the JavaScript String.includes test. -/
def containsSub : List Char → List Char → Bool
  | [], needle => needle.isEmpty
  | c :: rest, needle => needle.isPrefixOf (c :: rest) || containsSub rest needle

/-- Model of the test on the stopped reason performed by the resume policy:
reason.includes applied to the breakpoint literal. -/
def reasonHasBreakpoint (reason : String) : Bool :=
  containsSub reason.data "breakpoint".data

/-! Protocol data shapes used by the tracker. -/

/-- A DAP source descriptor as far as the tracker reads it. -/
structure SourceDesc where
  path : Option String
  deriving DecidableEq, Repr

/-- An adapter-assigned breakpoint descriptor, as delivered in a
setBreakpoints response or a breakpoint-changed event. -/
structure BreakpointDesc where
  id : Option Nat
  verified : Bool
  source : Option SourceDesc
  line : Option Nat
  endLine : Option Nat
  column : Option Nat
  endColumn : Option Nat
  instructionReference : Option String
  deriving DecidableEq, Repr

/-- One entry of the breakpoints array of an outgoing setBreakpoints
request. -/
structure SourceBp where
  line : Nat
  column : Option Nat
  condition : Option String
  logMessage : Option String
  deriving DecidableEq, Repr

/-- One registered scriptpoint: index in the originating request's array,
the extracted script, the stop flag, and the descriptor bound later by the
correlator (absent until the response arrives). -/
structure Scriptpoint where
  index : Nat
  script : String
  stop : Bool
  breakpoint : Option BreakpointDesc
  deriving DecidableEq, Repr

/-- The top stack frame as returned by the stackTrace round trip.  The
stopped handler has already checked that the frame carries a source with a
path, so the path is a plain string here. -/
structure Frame where
  id : Nat
  sourcePath : String
  line : Nat
  endLine : Option Nat
  column : Option Nat
  endColumn : Option Nat
  instructionPointerReference : Option String
  deriving DecidableEq, Repr

/-! The request rewriter. -/

/-- The guard on a breakpoint entry: the log message is present, non-empty
and starts with a bang. -/
def isTagged : Option String → Bool
  | none => false
  | some s =>
    match s.data with
    | [] => false
    | c :: _ => c == '!'

/-- Reads the string out of a present log message. -/
def theMsg : Option String → String
  | some s => s
  | none => ""

/-- The stop test of the rewriter: the message has length greater than one
and its second character is a bang. -/
def secondCharBang (msg : String) : Bool :=
  match msg.data with
  | _ :: c :: _ => c == '!'
  | _ => false

/-- Rewrite of a single breakpoint entry at array index i: untagged entries
pass through; a tagged entry whose message matches the extraction pattern is
registered as a scriptpoint and its log message is cleared; a tagged entry
on which the pattern fails is skipped untouched. -/
def rewriteEntry (i : Nat) (bp : SourceBp) : SourceBp × Option Scriptpoint :=
  if isTagged bp.logMessage then
    let msg := theMsg bp.logMessage
    match jsMatch msg with
    | none => (bp, none)
    | some script => ({ bp with logMessage := none }, some ⟨i, script, secondCharBang msg, none⟩)
  else (bp, none)

/-- Rewrite of the whole breakpoints array starting at index k: returns the
rewritten array and the collected scriptpoints. -/
def rewriteBreakpointsAux : Nat → List SourceBp → List SourceBp × List Scriptpoint
  | _, [] => ([], [])
  | k, bp :: rest =>
    let r := rewriteEntry k bp
    let rs := rewriteBreakpointsAux (k + 1) rest
    (r.1 :: rs.1,
      match r.2 with
      | some sp => sp :: rs.2
      | none => rs.2)

/-- Rewrite of a setBreakpoints request's breakpoints array, collecting
the scriptpoints in order. -/
def rewriteBreakpoints (bps : List SourceBp) : List SourceBp × List Scriptpoint :=
  rewriteBreakpointsAux 0 bps

/-! The stop matcher. -/

/-- JavaScript truthiness of an optional string field: present and
non-empty. -/
def jsTruthyStr : Option String → Bool
  | none => false
  | some s => !(s == "")

/-- Strict equality of two possibly-undefined string fields, as the
JavaScript triple-equals computes it. -/
def strictEqStr : Option String → Option String → Bool
  | some a, some b => a == b
  | none, none => true
  | _, _ => false

/-- Strict equality of two possibly-undefined number fields, as the
JavaScript triple-equals computes it. -/
def strictEqNat : Option Nat → Option Nat → Bool
  | some a, some b => a == b
  | none, none => true
  | _, _ => false

/-- The match test of the stopped handler: when the descriptor's
instruction reference is truthy, compare it with the frame's instruction
pointer reference; otherwise require a defined source path and line equal to
the frame's and strict equality on end line, column and end column. -/
def matchScriptpoint (bp : BreakpointDesc) (frame : Frame) : Bool :=
  if jsTruthyStr bp.instructionReference then
    strictEqStr bp.instructionReference frame.instructionPointerReference
  else
    (match bp.source with
      | none => false
      | some src =>
        match src.path with
        | none => false
        | some p => p == frame.sourcePath) &&
    (match bp.line with
      | none => false
      | some l => l == frame.line) &&
    strictEqNat bp.endLine frame.endLine &&
    strictEqNat bp.column frame.column &&
    strictEqNat bp.endColumn frame.endColumn

/-- Source-range matching written after the specification's words: defined
and equal source path and start line, and equal end line, start column and
end column, a missing field counting as equal only when missing on both
sides. -/
def specSourceMatch (bp : BreakpointDesc) (frame : Frame) : Bool :=
  strictEqStr (bp.source.bind SourceDesc.path) (some frame.sourcePath) &&
  strictEqNat bp.line (some frame.line) &&
  strictEqNat bp.endLine frame.endLine &&
  strictEqNat bp.column frame.column &&
  strictEqNat bp.endColumn frame.endColumn

/-! The script executor.  A script's execution is abstracted as the sequence
of observable capability steps it performs: log lines it emits, round trips
that complete, and at most one thrown exception that ends the run. -/

/-- One observable step of a script execution. -/
inductive ScriptStep where
  | log (message : String)
  | call
  | raise (message : String)
  deriving DecidableEq, Repr

/-- Runs the steps of a script body in order: collects the log lines emitted
before completion or before the first thrown exception, and returns the
exception message when one is thrown. -/
def runScript : List ScriptStep → List String × Option String
  | [] => ([], none)
  | ScriptStep.log m :: rest =>
    let r := runScript rest
    (m :: r.1, r.2)
  | ScriptStep.call :: rest => runScript rest
  | ScriptStep.raise m :: _ => ([], some m)

/-- The error line the executor appends to the output stream when the
script throws: red colour code, the exception text, the script text, reset
colour code. -/
def errLine (script e : String) : String :=
  "\x1b[31m" ++ "Scriptpoint exception \"" ++ e ++ "\" executing: \"" ++ script ++ "\"" ++ "\x1b[0m"

/-- The executor: runs the script, catching any thrown exception.  Returns
the lines appended to the output stream and the success flag; on a throw the
error line is appended after the lines already logged and the result is
failure. -/
def executeScriptpoint (script : String) (steps : List ScriptStep) : List String × Bool :=
  let r := runScript steps
  match r.2 with
  | some m => (r.1 ++ [errLine script m], false)
  | none => (r.1, true)

/-! The stopped-event handler: the scan over the matched source's
scriptpoints, the executor invocation and the resume policy. -/

/-- Everything the stopped handler emits: the scripts executed in order,
the output-stream lines, and the thread ids of the continue requests
issued. -/
structure StoppedOutcome where
  executed : List String
  output : List String
  continues : List Nat
  deriving DecidableEq, Repr

/-- One iteration of the scriptpoint scan: a scriptpoint without a bound
descriptor is skipped; otherwise, if its descriptor matches the frame the
script is executed, and a continue request is issued when the execution
succeeded, the stop flag is false, the stop was not attributed to a step
command, and the stopped reason contains the breakpoint literal. -/
def checkStep (frame : Frame) (stepped : Bool) (reason : String) (threadId : Nat)
    (exec : String → List ScriptStep) (acc : StoppedOutcome) (sp : Scriptpoint) : StoppedOutcome :=
  match sp.breakpoint with
  | none => acc
  | some bp =>
    if matchScriptpoint bp frame then
      let r := executeScriptpoint sp.script (exec sp.script)
      { executed := acc.executed ++ [sp.script]
        output := acc.output ++ r.1
        continues := acc.continues ++
          (if r.2 && !sp.stop && !stepped && reasonHasBreakpoint reason then [threadId] else []) }
    else acc

/-- The scan of the stopped handler over the source's scriptpoint list. -/
def checkScriptpoints (sps : List Scriptpoint) (frame : Frame) (stepped : Bool)
    (reason : String) (threadId : Nat) (exec : String → List ScriptStep) : StoppedOutcome :=
  sps.foldl (checkStep frame stepped reason threadId exec) ⟨[], [], []⟩

/-! The variables capability.  The adapter's variables round trip is
abstracted as a function from a variables reference to the list of child
variables. -/

/-- One variable as returned by the variables round trip. -/
structure VarDesc where
  name : String
  value : String
  variablesReference : Int
  deriving DecidableEq, Repr

/-- Indentation of the crawl: the two-space string repeated. -/
def indentRepeat : Nat → String
  | 0 => ""
  | n + 1 => "  " ++ indentRepeat n

/-- The crawl of the source as written: for each child variable it appends
the indented name-value line and then concatenates the result of the
recursive call.  The recursive call is an async function call whose promise
is concatenated without being awaited, so the string appended for the
subtree is the coercion of an unresolved promise, the constant text
of an object Promise tag, and none of the subtree's lines reach the
output. -/
def variableCrawl (varsOf : Int → List VarDesc) (variablesReference : Int) (indentLevel : Nat) : String :=
  if variablesReference > 0 then
    (varsOf variablesReference).foldl
      (fun out v => out ++ indentRepeat indentLevel ++ v.name ++ ": " ++ v.value ++ "\n" ++ "[object Promise]")
      ""
  else ""

/-- The variables capability as written: the first line is the expression
and its evaluate result; the appended crawl is again an unawaited promise,
so the tail of the text is the promise coercion, independent of the
variable tree. -/
def variablesText (varsOf : Int → List VarDesc) (expression evalResult : String) (evalRef : Int) : String :=
  expression ++ ": " ++ evalResult ++ "\n" ++ "[object Promise]"

/-- The crawl as the specification describes it, awaiting each recursive
expansion; fuel bounds the depth so the definition is total even on cyclic
reference graphs. -/
def specVariableCrawl (varsOf : Int → List VarDesc) : Nat → Int → Nat → String
  | 0, _, _ => ""
  | Nat.succ fuel, ref, indent =>
    if ref > 0 then
      (varsOf ref).foldl
        (fun out v => out ++ indentRepeat indent ++ v.name ++ ": " ++ v.value ++ "\n" ++
          specVariableCrawl varsOf fuel v.variablesReference (indent + 1))
        ""
    else ""

/-- The variables capability as the specification describes it. -/
def specVariables (varsOf : Int → List VarDesc) (fuel : Nat) (expression evalResult : String) (evalRef : Int) : String :=
  expression ++ ": " ++ evalResult ++ "\n" ++ specVariableCrawl varsOf fuel evalRef 1

/-! The per-session tracker state and the message handlers that maintain
it. -/

/-- The scriptpoints of one source file, with the sequence number of the
latest setBreakpoints request for it. -/
structure ScriptpointSource where
  setBreakpointsSeq : Int
  scriptpoints : List Scriptpoint
  deriving DecidableEq, Repr

/-- The tracker's per-session state: the path-keyed source map, the
breakpoint-id backmap (holding the owning path), and the step flag. -/
structure TrackerState where
  sources : List (String × ScriptpointSource)
  idToSource : List (Nat × String)
  step : Bool
  deriving DecidableEq, Repr

/-- Lookup in the path-keyed source map. -/
def lookupSource : List (String × ScriptpointSource) → String → Option ScriptpointSource
  | [], _ => none
  | (k, v) :: rest, p => if k == p then some v else lookupSource rest p

/-- Update of the path-keyed source map: replace the entry for the key, or
append a fresh one. -/
def setSource : List (String × ScriptpointSource) → String → ScriptpointSource → List (String × ScriptpointSource)
  | [], p, v => [(p, v)]
  | (k, w) :: rest, p, v => if k == p then (p, v) :: rest else (k, w) :: setSource rest p v

/-- Update of the id backmap. -/
def setIdEntry : List (Nat × String) → Nat → String → List (Nat × String)
  | [], k, v => [(k, v)]
  | (k2, v2) :: rest, k, v => if k2 == k then (k, v) :: rest else (k2, v2) :: setIdEntry rest k v

/-- The id registrations performed while binding one source's scriptpoints
to a response's descriptor array: every descriptor present at the
scriptpoint's index whose id field is truthy is mapped to the source's
path. -/
def idUpdatesFor (m : List (Nat × String)) (p : String) (descs : List BreakpointDesc)
    (sps : List Scriptpoint) : List (Nat × String) :=
  sps.foldl
    (fun m sp =>
      match descs.get? sp.index with
      | some b =>
        match b.id with
        | some i => if i != 0 then setIdEntry m i p else m
        | none => m
      | none => m)
    m

/-- Binding of one source to an incoming setBreakpoints response: when the
source's recorded sequence number equals the response's request sequence,
every scriptpoint receives the descriptor at its index of the response's
parallel array; otherwise the source is untouched. -/
def respondSource (rseq : Int) (descs : List BreakpointDesc) (src : ScriptpointSource) : ScriptpointSource :=
  if src.setBreakpointsSeq == rseq then
    { src with scriptpoints := src.scriptpoints.map (fun sp => { sp with breakpoint := descs.get? sp.index }) }
  else src

/-- The commands whose outgoing request sets the step flag. -/
def stepCommands : List String := ["next", "stepIn", "stepOut"]

/-- The protocol messages the state machine consumes: an outgoing
setBreakpoints request, any other outgoing request dispatched by command
name, and an incoming setBreakpoints response. -/
inductive DapMsg where
  | setBreakpointsReq (seq : Int) (path : Option String) (bps : Option (List SourceBp))
  | commandReq (command : String)
  | setBreakpointsResp (requestSeq : Int) (bps : List BreakpointDesc)
  deriving Repr

/-- The state transition for one message.  A setBreakpoints request without
a path is skipped; otherwise the path's source entry is replaced whole: new
sequence number, freshly rewritten scriptpoint list (empty when the request
carries no breakpoints array).  A step command sets the step flag.  A
response binds descriptors onto every source whose recorded sequence number
equals the response's request sequence and registers the descriptor ids. -/
def applyMsg (st : TrackerState) : DapMsg → TrackerState
  | DapMsg.setBreakpointsReq seq path bps =>
    match path with
    | none => st
    | some p =>
      let sps := match bps with
        | none => []
        | some l => (rewriteBreakpoints l).2
      { st with sources := setSource st.sources p ⟨seq, sps⟩ }
  | DapMsg.commandReq cmd =>
    if stepCommands.contains cmd then { st with step := true } else st
  | DapMsg.setBreakpointsResp rseq descs =>
    { st with
      sources := st.sources.map (fun kv => (kv.1, respondSource rseq descs kv.2))
      idToSource := st.sources.foldl
        (fun m kv =>
          if kv.2.setBreakpointsSeq == rseq then idUpdatesFor m kv.1 descs kv.2.scriptpoints else m)
        st.idToSource }

/-- Folding a message sequence through the state machine. -/
def applyMsgs (st : TrackerState) (msgs : List DapMsg) : TrackerState :=
  msgs.foldl applyMsg st

/-! Helper lemmas shared by the claim theorems. -/

/-- On any tagged log message the extraction pattern produces a capture. -/
lemma jsMatch_isSome_of_tagged (m : Option String) (h : isTagged m = true) :
    ∃ s, jsMatch (theMsg m) = some s := by
  match m with
  | none => simp [isTagged] at h
  | some msg =>
    match hd : msg.data with
    | [] => simp [isTagged, hd] at h
    | c :: rest =>
      simp only [isTagged, hd, beq_iff_eq] at h
      subst h
      have hsome : (jsMatch (theMsg (some msg))).isSome = true := by
        simp [jsMatch, theMsg, hd, jsMatchList, matchTagAt]
      exact Option.isSome_iff_exists.mp hsome

/-- The rewritten breakpoints array is the original with the log messages
of exactly the tagged entries cleared. -/
lemma rewriteAux_fst (bps : List SourceBp) : ∀ k,
    (rewriteBreakpointsAux k bps).1 =
      bps.map (fun bp => if isTagged bp.logMessage then { bp with logMessage := none } else bp) := by
  induction bps with
  | nil => intro k; rfl
  | cons bp rest ih =>
    intro k
    by_cases h : isTagged bp.logMessage
    · obtain ⟨s, hs⟩ := jsMatch_isSome_of_tagged bp.logMessage h
      simp [rewriteBreakpointsAux, rewriteEntry, h, hs, ih]
    · simp [rewriteBreakpointsAux, rewriteEntry, h, ih]

/-- Every tagged entry contributes a scriptpoint carrying its array
index. -/
lemma rewriteAux_index_mem : ∀ (bps : List SourceBp) (k i : Nat) (h : i < bps.length),
    isTagged (bps.get ⟨i, h⟩).logMessage = true →
    ∃ sp, sp ∈ (rewriteBreakpointsAux k bps).2 ∧ sp.index = k + i := by
  intro bps
  induction bps with
  | nil => intro k i h; exact absurd h (by simp)
  | cons bp rest ih =>
    intro k i h ht
    match i with
    | 0 =>
      have ht0 : isTagged bp.logMessage = true := ht
      obtain ⟨s, hs⟩ := jsMatch_isSome_of_tagged _ ht0
      refine ⟨⟨k, s, secondCharBang (theMsg bp.logMessage), none⟩, ?_, by simp⟩
      simp [rewriteBreakpointsAux, rewriteEntry, ht0, hs]
    | Nat.succ j =>
      have h' : j < rest.length := Nat.lt_of_succ_lt_succ (by simpa using h)
      have ht' : isTagged (rest.get ⟨j, h'⟩).logMessage = true := ht
      obtain ⟨sp, hmem, hidx⟩ := ih (k + 1) j h' ht'
      refine ⟨sp, ?_, by omega⟩
      cases hr : (rewriteEntry k bp).2 <;> simp [rewriteBreakpointsAux, hr, hmem]

/-- Lookup after an update finds the updated value. -/
lemma lookupSource_setSource (m : List (String × ScriptpointSource)) (p : String)
    (v : ScriptpointSource) : lookupSource (setSource m p v) p = some v := by
  induction m with
  | nil => simp [setSource, lookupSource]
  | cons kv rest ih =>
    obtain ⟨k, w⟩ := kv
    cases h : (k == p) <;> simp [setSource, lookupSource, h, ih]

/-- Lookup commutes with a value-wise map over the source table. -/
lemma lookupSource_map (f : ScriptpointSource → ScriptpointSource)
    (m : List (String × ScriptpointSource)) (p : String) :
    lookupSource (m.map (fun kv => (kv.1, f kv.2))) p = (lookupSource m p).map f := by
  induction m with
  | nil => rfl
  | cons kv rest ih =>
    obtain ⟨k, w⟩ := kv
    cases h : (k == p) <;> simp [lookupSource, h, ih]

/-- Accumulator form of the stopped-handler scan: the executed scripts are
those of the scriptpoints with a bound, matching descriptor, in order. -/
lemma checkFold_executed (frame : Frame) (stepped : Bool) (reason : String) (threadId : Nat)
    (exec : String → List ScriptStep) :
    ∀ (sps : List Scriptpoint) (acc : StoppedOutcome),
      (sps.foldl (checkStep frame stepped reason threadId exec) acc).executed =
        acc.executed ++ (sps.filter (fun sp =>
          match sp.breakpoint with
          | some bp => matchScriptpoint bp frame
          | none => false)).map Scriptpoint.script := by
  intro sps
  induction sps with
  | nil => intro acc; simp
  | cons sp rest ih =>
    intro acc
    match hb : sp.breakpoint with
    | none => simp [checkStep, hb, ih]
    | some bp =>
      cases hm : matchScriptpoint bp frame <;>
        simp [checkStep, hb, hm, ih]

/-! Claim theorems. -/

/-- C7: the executor never lets an exception escape.  For every script whose
execution throws, the result is failure and the output stream received the
single error line, which carries the error-visual markers and contains the
script text and the failure message. -/
theorem c7_executor_catches (script : String) (steps : List ScriptStep) (m : String)
    (h : (runScript steps).2 = some m) :
    executeScriptpoint script steps = ((runScript steps).1 ++ [errLine script m], false) ∧
    errLine script m ∈ (executeScriptpoint script steps).1 ∧
    (∃ a b, errLine script m = a ++ script ++ b) ∧
    (∃ a b, errLine script m = a ++ m ++ b) ∧
    (∃ a, errLine script m = "\x1b[31m" ++ a) ∧
    (∃ b, errLine script m = b ++ "\x1b[0m") := by
  refine ⟨by simp [executeScriptpoint, h], by simp [executeScriptpoint, h], ?_, ?_, ?_, ?_⟩
  · exact ⟨"\x1b[31m" ++ "Scriptpoint exception \"" ++ m ++ "\" executing: \"",
      "\"" ++ "\x1b[0m", by simp only [errLine, String.append_assoc]⟩
  · exact ⟨"\x1b[31m" ++ "Scriptpoint exception \"",
      "\" executing: \"" ++ script ++ "\"" ++ "\x1b[0m", by simp only [errLine, String.append_assoc]⟩
  · exact ⟨"Scriptpoint exception \"" ++ m ++ "\" executing: \"" ++ script ++ "\"" ++ "\x1b[0m",
      by simp only [errLine, String.append_assoc]⟩
  · exact ⟨"\x1b[31m" ++ "Scriptpoint exception \"" ++ m ++ "\" executing: \"" ++ script ++ "\"",
      by simp only [errLine, String.append_assoc]⟩

/-- Witness for C7 at a concrete throwing execution. -/
theorem c7_executor_catches_witness :
    executeScriptpoint "boom()" [ScriptStep.log "a", ScriptStep.raise "TypeError"] =
      (["a", errLine "boom()" "TypeError"], false) :=
  (c7_executor_catches "boom()" [ScriptStep.log "a", ScriptStep.raise "TypeError"]
    "TypeError" rfl).1

/-- C8: a log message of one bang and whitespace keeps stop false and
strips down to the script text, and a double bang sets stop true. -/
theorem c8_tag_stripping :
    rewriteBreakpoints [⟨10, none, none, some "!  foo()"⟩] =
      ([⟨10, none, none, none⟩], [⟨0, "foo()", false, none⟩]) ∧
    rewriteBreakpoints [⟨10, none, none, some "!!foo()"⟩] =
      ([⟨10, none, none, none⟩], [⟨0, "foo()", true, none⟩]) := by
  exact ⟨by decide, by decide⟩

/-- C9: rewriting a breakpoints array leaves every untagged entry unchanged
and clears the log message of exactly the tagged entries. -/
theorem c9_untagged_preserved (bps : List SourceBp) :
    (rewriteBreakpoints bps).1 =
      bps.map (fun bp => if isTagged bp.logMessage then { bp with logMessage := none } else bp) :=
  rewriteAux_fst bps 0

/-- C10: on every tagged log message the extraction pattern matches, so the
malformed-scriptpoint skip branch is unreachable: the tagged entry is
registered as a scriptpoint carrying its index and its log message is
cleared. -/
theorem c10_tagged_always_registered (bps : List SourceBp) (i : Nat) (h : i < bps.length)
    (ht : isTagged bps[i].logMessage = true) :
    (jsMatch (theMsg bps[i].logMessage)).isSome = true ∧
    (∃ sp, sp ∈ (rewriteBreakpoints bps).2 ∧ sp.index = i) ∧
    (rewriteBreakpoints bps).1.get? i = some { bps[i] with logMessage := none } := by
  refine ⟨?_, ?_, ?_⟩
  · obtain ⟨s, hs⟩ := jsMatch_isSome_of_tagged _ ht
    rw [hs]
    rfl
  · have htg : isTagged (bps.get ⟨i, h⟩).logMessage = true := by simpa using ht
    have hmem := rewriteAux_index_mem bps 0 i h htg
    simpa using hmem
  · have h9 := rewriteAux_fst bps 0
    rw [show (rewriteBreakpoints bps).1 =
      bps.map (fun bp => if isTagged bp.logMessage then { bp with logMessage := none } else bp)
      from h9]
    rw [List.get?_map, List.get?_eq_get h]
    simp [ht]

/-- C1: for a scriptpoint whose descriptor matches the top frame, the scan
issues a continue request for the stopped thread exactly when the script
execution succeeded, the scriptpoint's stop flag is false, the stop was not
attributed to a preceding step command (the step flag captured at the
stopped event is false), and the stopped reason contains the breakpoint
literal (which excludes exception, entry and pause reasons). -/
theorem c1_resume_policy (sp : Scriptpoint) (bp : BreakpointDesc) (frame : Frame)
    (stepped : Bool) (reason : String) (threadId : Nat) (exec : String → List ScriptStep)
    (hbp : sp.breakpoint = some bp) (hm : matchScriptpoint bp frame = true) :
    threadId ∈ (checkScriptpoints [sp] frame stepped reason threadId exec).continues ↔
      ((executeScriptpoint sp.script (exec sp.script)).2 = true ∧ sp.stop = false ∧
        stepped = false ∧ reasonHasBreakpoint reason = true) := by
  simp only [checkScriptpoints, List.foldl, checkStep, hbp, hm, if_true]
  cases h1 : (executeScriptpoint sp.script (exec sp.script)).2 <;>
    cases h2 : sp.stop <;> cases h3 : stepped <;>
      cases h4 : reasonHasBreakpoint reason <;> simp_all

/-- Witness for C1: all four conditions hold at a concrete stop and the
continue request is issued. -/
theorem c1_resume_policy_witness :
    (⟨0, "log(1)", false, some ⟨some 1, true, some ⟨some "a.cpp"⟩, some 10, none, none, none, none⟩⟩ :
        Scriptpoint).breakpoint =
      some ⟨some 1, true, some ⟨some "a.cpp"⟩, some 10, none, none, none, none⟩ ∧
    matchScriptpoint ⟨some 1, true, some ⟨some "a.cpp"⟩, some 10, none, none, none, none⟩
      ⟨5, "a.cpp", 10, none, none, none, none⟩ = true ∧
    3 ∈ (checkScriptpoints
      [⟨0, "log(1)", false, some ⟨some 1, true, some ⟨some "a.cpp"⟩, some 10, none, none, none, none⟩⟩]
      ⟨5, "a.cpp", 10, none, none, none, none⟩ false "breakpoint" 3 (fun _ => [])).continues :=
  ⟨rfl, by decide,
    (c1_resume_policy
      ⟨0, "log(1)", false, some ⟨some 1, true, some ⟨some "a.cpp"⟩, some 10, none, none, none, none⟩⟩
      ⟨some 1, true, some ⟨some "a.cpp"⟩, some 10, none, none, none, none⟩
      ⟨5, "a.cpp", 10, none, none, none, none⟩ false "breakpoint" 3 (fun _ => [])
      rfl (by decide)).mpr (by decide)⟩

/-- The two-scriptpoint source used to refute the first-match-wins claim. -/
def bpC2 : BreakpointDesc := ⟨some 1, true, some ⟨some "a.cpp"⟩, some 10, none, none, none, none⟩

/-- The frame both scriptpoints of the counterexample match. -/
def frameC2 : Frame := ⟨7, "a.cpp", 10, none, none, none, none⟩

/-- C2 is false on the code: the scan has no early exit, so with two
scriptpoints whose descriptors both match the frame, both scripts execute;
the claim predicts that only the first would. -/
theorem c2_first_match_counterexample :
    (checkScriptpoints [⟨0, "s1", false, some bpC2⟩, ⟨1, "s2", false, some bpC2⟩]
      frameC2 false "breakpoint" 3 (fun _ => [])).executed = ["s1", "s2"] ∧
    (["s1", "s2"] : List String) ≠ ["s1"] := by
  exact ⟨by decide, by decide⟩

/-- C2 (amended): the scriptpoints are scanned in order and every
scriptpoint with a bound descriptor matching the frame fires; a match does
not end the scan. -/
theorem c2_all_matches_fire (sps : List Scriptpoint) (frame : Frame) (stepped : Bool)
    (reason : String) (threadId : Nat) (exec : String → List ScriptStep) :
    (checkScriptpoints sps frame stepped reason threadId exec).executed =
      (sps.filter (fun sp =>
        match sp.breakpoint with
        | some bp => matchScriptpoint bp frame
        | none => false)).map Scriptpoint.script := by
  have h := checkFold_executed frame stepped reason threadId exec sps ⟨[], [], []⟩
  simpa [checkScriptpoints] using h

/-- The variable tree used to exhibit the missing await: the evaluate
result's reference 1 has a single leaf child. -/
def varsOfC3 : Int → List VarDesc := fun r => if r == 1 then [⟨"a", "1", 0⟩] else []

/-- C3 fails on the code as written: the recursive crawl is an async call
whose promise is concatenated without await, so the text returned by the
variables capability is the first line followed by the promise coercion,
never the indented expansion the claim describes; the crawl itself likewise
appends the promise coercion in place of every subtree. -/
theorem c3_variables_missing_await :
    variablesText varsOfC3 "x" "42" 1 = "x: 42\n[object Promise]" ∧
    variableCrawl varsOfC3 1 1 = "  a: 1\n[object Promise]" ∧
    specVariables varsOfC3 5 "x" "42" 1 = "x: 42\n  a: 1\n" ∧
    variablesText varsOfC3 "x" "42" 1 ≠ specVariables varsOfC3 5 "x" "42" 1 := by
  refine ⟨by decide, by decide, by decide, by decide⟩

/-- The descriptor carrying an empty instruction reference together with a
matching source range. -/
def bpC5 : BreakpointDesc := ⟨some 1, true, some ⟨some "a.cpp"⟩, some 10, none, none, none, some ""⟩

/-- The frame of the C5 counterexample; it has no instruction pointer
reference. -/
def frameC5 : Frame := ⟨7, "a.cpp", 10, none, none, none, none⟩

/-- C5 as stated is false: a descriptor carrying an instruction reference
that is the empty string is falsy in the truthiness test, so the code
matches it by source range (here successfully), while the claim says the
match is decided solely by reference equality (here false). -/
theorem c5_counterexample :
    bpC5.instructionReference.isSome = true ∧
    matchScriptpoint bpC5 frameC5 = true ∧
    strictEqStr bpC5.instructionReference frameC5.instructionPointerReference = false := by
  exact ⟨by decide, by decide, by decide⟩

/-- C5 (amended): when the descriptor carries a non-empty instruction
reference the match is decided solely by strict equality with the frame's
instruction pointer reference, and otherwise it is exactly the
source-range equality the specification describes. -/
theorem c5_match_precedence (bp : BreakpointDesc) (frame : Frame) :
    matchScriptpoint bp frame =
      if jsTruthyStr bp.instructionReference then
        strictEqStr bp.instructionReference frame.instructionPointerReference
      else specSourceMatch bp frame := by
  cases ht : jsTruthyStr bp.instructionReference
  · simp only [matchScriptpoint, specSourceMatch, ht, Bool.false_eq_true, if_false]
    cases hs : bp.source with
    | none => simp [strictEqStr]
    | some src =>
      cases hp : src.path with
      | none => simp [strictEqStr, hp]
      | some p =>
        cases hl : bp.line with
        | none => simp [strictEqStr, strictEqNat, hp, hl]
        | some l => simp [strictEqStr, strictEqNat, hp, hl]
  · simp [matchScriptpoint, ht]

/-- C4: a second setBreakpoints request for the same path issued before the
first response arrives replaces the path's entry whole; after the first
(stale) response the entry still holds exactly the second request's
scriptpoints with no descriptor bound, and after the second response the
descriptors come from the second response only. -/
theorem c4_supersedure (st : TrackerState) (p : String) (s1 s2 : Int)
    (bps1 bps2 : List SourceBp) (d1 d2 : List BreakpointDesc) (h : s1 ≠ s2) :
    lookupSource (applyMsgs st
      [DapMsg.setBreakpointsReq s1 (some p) (some bps1),
       DapMsg.setBreakpointsReq s2 (some p) (some bps2),
       DapMsg.setBreakpointsResp s1 d1]).sources p =
      some ⟨s2, (rewriteBreakpoints bps2).2⟩ ∧
    lookupSource (applyMsgs st
      [DapMsg.setBreakpointsReq s1 (some p) (some bps1),
       DapMsg.setBreakpointsReq s2 (some p) (some bps2),
       DapMsg.setBreakpointsResp s1 d1,
       DapMsg.setBreakpointsResp s2 d2]).sources p =
      some ⟨s2, (rewriteBreakpoints bps2).2.map
        (fun sp => { sp with breakpoint := d2.get? sp.index })⟩ := by
  have hs : ((s2 : Int) == s1) = false := beq_eq_false_iff_ne.mpr (Ne.symm h)
  constructor
  · simp only [applyMsgs, List.foldl, applyMsg]
    rw [lookupSource_map, lookupSource_setSource]
    simp [respondSource, hs]
  · simp only [applyMsgs, List.foldl, applyMsg]
    rw [lookupSource_map, lookupSource_map, lookupSource_setSource]
    simp [respondSource, hs]

/-- Witness for C4 at a concrete superseded request pair. -/
theorem c4_supersedure_witness :
    (1 : Int) ≠ 2 ∧
    (lookupSource (applyMsgs ⟨[], [], false⟩
      [DapMsg.setBreakpointsReq 1 (some "a.ts") (some [⟨1, none, none, some "!x"⟩]),
       DapMsg.setBreakpointsReq 2 (some "a.ts") (some [⟨2, none, none, some "!!y"⟩]),
       DapMsg.setBreakpointsResp 1 [⟨some 7, true, none, some 1, none, none, none, none⟩]]).sources
        "a.ts" =
      some ⟨2, (rewriteBreakpoints [⟨2, none, none, some "!!y"⟩]).2⟩ ∧
    lookupSource (applyMsgs ⟨[], [], false⟩
      [DapMsg.setBreakpointsReq 1 (some "a.ts") (some [⟨1, none, none, some "!x"⟩]),
       DapMsg.setBreakpointsReq 2 (some "a.ts") (some [⟨2, none, none, some "!!y"⟩]),
       DapMsg.setBreakpointsResp 1 [⟨some 7, true, none, some 1, none, none, none, none⟩],
       DapMsg.setBreakpointsResp 2 [⟨some 8, true, none, some 2, none, none, none, none⟩]]).sources
        "a.ts" =
      some ⟨2, (rewriteBreakpoints [⟨2, none, none, some "!!y"⟩]).2.map
        (fun sp => { sp with breakpoint :=
          [(⟨some 8, true, none, some 2, none, none, none, none⟩ : BreakpointDesc)].get? sp.index })⟩) :=
  ⟨by decide, c4_supersedure ⟨[], [], false⟩ "a.ts" 1 2
    [⟨1, none, none, some "!x"⟩] [⟨2, none, none, some "!!y"⟩]
    [⟨some 7, true, none, some 1, none, none, none, none⟩]
    [⟨some 8, true, none, some 2, none, none, none, none⟩] (by decide)⟩

/-- The descriptor bound by the first response of the C6 counterexample. -/
def descC6a : BreakpointDesc := ⟨some 1, true, none, some 10, none, none, none, none⟩

/-- The different descriptor carried by the duplicate response. -/
def descC6b : BreakpointDesc := ⟨some 1, true, none, some 20, none, none, none, none⟩

/-- C6 is false on the code: the recorded request sequence is not cleared
when a response correlates, so a later response bearing the same request
sequence binds its descriptor array again; here the scriptpoint ends up
with the second response's descriptor, where the claim says the first
binding would be kept. -/
theorem c6_counterexample :
    lookupSource (applyMsgs ⟨[], [], false⟩
      [DapMsg.setBreakpointsReq 5 (some "a.ts") (some [⟨1, none, none, some "!x"⟩]),
       DapMsg.setBreakpointsResp 5 [descC6a],
       DapMsg.setBreakpointsResp 5 [descC6b]]).sources "a.ts" =
      some ⟨5, [⟨0, "x", false, some descC6b⟩]⟩ ∧
    descC6b ≠ descC6a := by
  exact ⟨by decide, by decide⟩

/-- C6 (amended): the pending request sequence is set on every rewrite but
is not consumed on correlation; every response bearing the matching request
sequence binds its descriptor array, so after two such responses the
descriptors are those of the later one. -/
theorem c6_rebinding (st : TrackerState) (p : String) (s : Int) (bps : List SourceBp)
    (d1 d2 : List BreakpointDesc) :
    lookupSource (applyMsgs st
      [DapMsg.setBreakpointsReq s (some p) (some bps),
       DapMsg.setBreakpointsResp s d1,
       DapMsg.setBreakpointsResp s d2]).sources p =
      some ⟨s, (rewriteBreakpoints bps).2.map
        (fun sp => { sp with breakpoint := d2.get? sp.index })⟩ := by
  simp only [applyMsgs, List.foldl, applyMsg]
  rw [lookupSource_map, lookupSource_map, lookupSource_setSource]
  simp [respondSource, List.map_map, Function.comp]

/-- Witness for C10 at a concrete tagged entry. -/
theorem c10_tagged_always_registered_witness :
    (jsMatch "!x").isSome = true ∧
    (∃ sp, sp ∈ (rewriteBreakpoints [⟨1, none, none, some "!x"⟩]).2 ∧ sp.index = 0) ∧
    (rewriteBreakpoints [⟨1, none, none, some "!x"⟩]).1.get? 0 = some ⟨1, none, none, none⟩ :=
  c10_tagged_always_registered [⟨1, none, none, some "!x"⟩] 0 (by decide) (by decide)

end Scriptpoints
